import Mathlib

/-!
Verification development for the Geospatial measurement survey application
(`geo_measurement_app.py`).  The web layer (`upload_file`, `sample`) is
embedded shallowly: form values are optional strings, external effects
(Python `float`, `json.loads`, `uuid.uuid4`, `datetime.now`, the outcome
reported by `measure_object`, and exceptions raised while reading or
writing `results/measurements.json`) are supplied by an explicit
environment, and each handler returns its HTTP response together with the
final record store and the traces of `measure_object` invocations and of
files saved under `uploads/`.  The measurement engine itself lives in
`measure_object_simple.py`, which is not among the source files; where a
claim depends on it, it is modelled from the specification (see the
`Engine` section below).
-/

namespace GeoApp

/-- A category entry, as in the `DEFAULT_CATEGORIES` list of the source. -/
structure Category where
  id : String
  name : String
  color : String
deriving DecidableEq, Repr

/-- `DEFAULT_CATEGORIES` from the source (lines 36-44). -/
def DEFAULT_CATEGORIES : List Category :=
  [⟨"furniture", "Furniture", "#4285F4"⟩,
   ⟨"electronics", "Electronics", "#34A853"⟩,
   ⟨"clothing", "Clothing", "#FBBC05"⟩,
   ⟨"kitchenware", "Kitchenware", "#EA4335"⟩,
   ⟨"tools", "Tools", "#8F44AD"⟩,
   ⟨"toys", "Toys", "#F39C12"⟩,
   ⟨"other", "Other", "#7F8C8D"⟩]

/-- `CATEGORIES` as loaded at startup: `categories.json` is created from
`DEFAULT_CATEGORIES` when absent and then read back (source lines 46-61),
so the freshly initialised store holds exactly the defaults. -/
def CATEGORIES : List Category := DEFAULT_CATEGORIES

/-- `next((c for c in CATEGORIES if c['id'] == category), None)`
(source lines 953 and 1058). -/
def findCategory (c : String) : Option Category :=
  CATEGORIES.find? (fun k => k.id == c)

/-- The weather payload carried by the `weather` form field, the shape
produced by the page's JavaScript (source lines 294-300) and by the
sample route (lines 1044-1050). -/
structure Weather where
  temperature : ℚ
  conditions : String
  humidity : ℚ
  windSpeed : ℚ
  location : String
deriving DecidableEq, Repr

/-- The sample weather dict of the `/sample` route (source lines 1044-1050). -/
def sampleWeather : Weather :=
  ⟨22, "Partly Cloudy", 65, 8, "New York City"⟩

/-- Outcome of a run of the measurement engine, following the failure
taxonomy of the specification (`DecodeError`, `NoReferenceFound`,
`NoObjectFound`, `DegenerateScale`); the success payload is defined with
the engine model below, so here we only need the discriminant together
with the numeric result. -/
inductive EngineOut where
  | ok (width_mm height_mm : ℚ)
  | decodeError
  | noReferenceFound
  | noObjectFound
  | degenerateScale
deriving DecidableEq, Repr

/-- External world observed by one request: results of the library calls
the handlers make.  `strToFloat` is Python `float` applied to a string
(`none` models a raised `ValueError`); `jsonLoads` is `json.loads`
(`none` models a raised exception); `uploadUuid` and `measUuid` are the
two `uuid.uuid4()` draws of `upload_file`; `now` is the formatted
`datetime.now()`; `engineOut` is the outcome `measure_object` reports.
Modelled from the spec: `measure_object` (in `measure_object_simple.py`,
absent from the sources) reports failures by console logging and returns
normally (§9 "Silent failure via console logging"), so its outcome is a
value the handler is free to ignore, not an exception.  `persistFails`
says whether reading or writing `results/measurements.json` raises
(source lines 989-998); `samplePath` is the path returned by
`create_sample_image()` (also absent from the sources). -/
structure Env where
  strToFloat : String → Option ℚ
  jsonLoads : String → Option Weather
  uploadUuid : String
  measUuid : String
  now : String
  engineOut : EngineOut
  persistFails : Bool
  samplePath : String

/-- An `/upload` POST as the handler reads it: the optional file part
(the `String` being `file.filename`) and the optional form fields. -/
structure UploadRequest where
  file : Option String
  reference_size : Option String
  object_name : Option String
  notes : Option String
  category : Option String
  latitude : Option String
  longitude : Option String
  accuracy : Option String
  weather : Option String

/-- One entry of `results/measurements.json`, with the fields
`upload_file` writes (source lines 970-986). -/
structure Record where
  id : String
  timestamp : String
  image_filename : String
  output_filename : String
  reference_size_mm : ℚ
  width_mm : String
  height_mm : String
  object_name : String
  notes : String
  category : String
  category_data : Option Category
  latitude : Option ℚ
  longitude : Option ℚ
  accuracy : Option ℚ
  weather_data : Option Weather
deriving DecidableEq, Repr

/-- The values interpolated into `RESULT_TEMPLATE` by
`render_template_string` (source lines 1004-1020 and 1091-1107). -/
structure ResultPage where
  image_url : String
  width : String
  height : String
  reference_size : ℚ
  latitude : Option ℚ
  longitude : Option ℚ
  accuracy : Option ℚ
  timestamp : String
  weather_data : Option Weather
  object_name : String
  notes : String
  category_color : Option String
  category_name : String
  measurement_id : String
deriving DecidableEq, Repr

/-- The handler's HTTP-level answer: `redirect('/')`, an unhandled
exception propagating out of the handler (Flask's 500 page), or a
rendered `RESULT_TEMPLATE`. -/
inductive Response where
  | redirect (loc : String)
  | serverError
  | page (p : ResultPage)
deriving DecidableEq, Repr

/-- What one handler invocation produces: the response, the final content
of `results/measurements.json`, the trace of `measure_object` calls
(image path and explicit reference-size argument, `none` when the call
leaves the parameter to its default), and the files saved under
`uploads/`. -/
structure HandlerResult where
  response : Response
  store : List Record
  measureCalls : List (String × Option ℚ)
  savedFiles : List String
deriving DecidableEq, Repr

/-- `float(request.form.get('reference_size', 24.26))` (source line 926):
when the field is absent `form.get` returns the float default `24.26`
and `float` of a float is the identity; when present, Python `float` is
applied to the string and may raise (`none`). -/
def refSizeVal (env : Env) (r : Option String) : Option ℚ :=
  match r with
  | none => some (24.26 : ℚ)
  | some s => env.strToFloat s

/-- One GPS conversion `float(x) if x else None` (source lines 946-948):
an absent or empty (falsy) field converts to `None` without calling
`float`; a non-empty field goes through `float`, whose failure is
modelled by the outer `none`. -/
def gpsConv (f : String → Option ℚ) (x : Option String) : Option (Option ℚ) :=
  match x with
  | none => some none
  | some s =>
    if s = "" then some none
    else match f s with
      | some v => some (some v)
      | none => none

/-- The `try`/`except (ValueError, TypeError)` block of source lines
945-950: if any of the three conversions raises, all three variables are
reset to `None`; otherwise each keeps its converted value. -/
def parseGps (f : String → Option ℚ) (la lo ac : Option String) :
    Option ℚ × Option ℚ × Option ℚ :=
  match gpsConv f la, gpsConv f lo, gpsConv f ac with
  | some a, some b, some c => (a, b, c)
  | _, _, _ => (none, none, none)

/-- `json.loads(weather_data_str) if weather_data_str else None` wrapped
in a bare `except` that yields `None` (source lines 939-942). -/
def parseWeather (env : Env) (w : Option String) : Option Weather :=
  match w with
  | none => none
  | some s => if s = "" then none else env.jsonLoads s

/-- `os.path.splitext(file.filename)[1]`: the extension including its
dot, empty when the name has no dot (Python's leading-dot special case
is irrelevant here: no claim depends on the saved file's name). -/
def extOf (s : String) : String :=
  match s.splitOn "." with
  | [] => ""
  | [_] => ""
  | ps => "." ++ ps.getLastD ""

/-- `str(uuid.uuid4()) + os.path.splitext(file.filename)[1]`
(source line 956). -/
def savedName (env : Env) (fname : String) : String :=
  env.uploadUuid ++ extOf fname

/-- The `measurement_data` dict assembled by `upload_file`
(source lines 970-986). -/
def mkUploadRecord (env : Env) (req : UploadRequest) (rs : ℚ) (fname : String) :
    Record :=
  { id := env.measUuid
    timestamp := env.now
    image_filename := savedName env fname
    output_filename := "output_image.jpg"
    reference_size_mm := rs
    width_mm := "Calculated automatically"
    height_mm := "Calculated automatically"
    object_name := (req.object_name.getD "").trim
    notes := (req.notes.getD "").trim
    category := req.category.getD "other"
    category_data := findCategory (req.category.getD "other")
    latitude := (parseGps env.strToFloat req.latitude req.longitude req.accuracy).1
    longitude := (parseGps env.strToFloat req.latitude req.longitude req.accuracy).2.1
    accuracy := (parseGps env.strToFloat req.latitude req.longitude req.accuracy).2.2
    weather_data := parseWeather env req.weather }

/-- The `render_template_string(RESULT_TEMPLATE, ...)` call of
`upload_file` (source lines 1004-1020). -/
def mkUploadPage (env : Env) (req : UploadRequest) (rs : ℚ) : ResultPage :=
  { image_url := "/output_image.jpg"
    width := "Calculated automatically"
    height := "Calculated automatically"
    reference_size := rs
    latitude := (parseGps env.strToFloat req.latitude req.longitude req.accuracy).1
    longitude := (parseGps env.strToFloat req.latitude req.longitude req.accuracy).2.1
    accuracy := (parseGps env.strToFloat req.latitude req.longitude req.accuracy).2.2
    timestamp := env.now
    weather_data := parseWeather env req.weather
    object_name := (req.object_name.getD "").trim
    notes := (req.notes.getD "").trim
    category_color := (findCategory (req.category.getD "other")).map Category.color
    category_name :=
      ((findCategory (req.category.getD "other")).map Category.name).getD "Other"
    measurement_id := env.measUuid }

/-- The `/upload` handler `upload_file` (source lines 914-1022).  The two
guard clauses redirect to `/`; `float` of an unparsable `reference_size`
raises before any side effect (line 926 precedes the file save at 958 and
the `measure_object` call at 961); on the good path the file is saved,
`measure_object(filepath, reference_size)` is invoked once and its
outcome discarded, the record is appended unless the persistence step
raises (in which case the exception is only printed), and the result
template is rendered with the placeholder dimensions. -/
def uploadFile (env : Env) (req : UploadRequest) (store : List Record) :
    HandlerResult :=
  match req.file with
  | none => ⟨Response.redirect "/", store, [], []⟩
  | some fname =>
    if fname = "" then ⟨Response.redirect "/", store, [], []⟩
    else
      match refSizeVal env req.reference_size with
      | none => ⟨Response.serverError, store, [], []⟩
      | some rs =>
        ⟨Response.page (mkUploadPage env req rs),
         if env.persistFails then store
         else store ++ [mkUploadRecord env req rs fname],
         [("uploads/" ++ savedName env fname, some rs)],
         ["uploads/" ++ savedName env fname]⟩

/-- The `measurement_data` dict assembled by the `/sample` route
(source lines 1061-1077). -/
def sampleRecord (env : Env) : Record :=
  { id := env.measUuid
    timestamp := env.now
    image_filename := "sample_image.jpg"
    output_filename := "output_image.jpg"
    reference_size_mm := (24.26 : ℚ)
    width_mm := "Calculated automatically"
    height_mm := "Calculated automatically"
    object_name := "Sample Test Object"
    notes := "This is a sample measurement generated by the system."
    category := "other"
    category_data := findCategory "other"
    latitude := some (40.7128 : ℚ)
    longitude := some (-74.0060 : ℚ)
    accuracy := some (10.0 : ℚ)
    weather_data := some sampleWeather }

/-- The `render_template_string(RESULT_TEMPLATE, ...)` call of the
`/sample` route (source lines 1091-1107). -/
def samplePage (env : Env) : ResultPage :=
  { image_url := "/output_image.jpg"
    width := "Calculated automatically"
    height := "Calculated automatically"
    reference_size := (24.26 : ℚ)
    latitude := some (40.7128 : ℚ)
    longitude := some (-74.0060 : ℚ)
    accuracy := some (10.0 : ℚ)
    timestamp := env.now
    weather_data := some sampleWeather
    object_name := "Sample Test Object"
    notes := "This is a sample measurement generated by the system."
    category_color := (findCategory "other").map Category.color
    category_name := ((findCategory "other").map Category.name).getD "Other"
    measurement_id := env.measUuid }

/-- The `/sample` handler (source lines 1024-1107): it creates the sample
image, invokes `measure_object(sample_path)` once leaving the reference
size to its default, appends the sample record unless the persistence
step raises, and renders the result template. -/
def sample (env : Env) (store : List Record) : HandlerResult :=
  ⟨Response.page (samplePage env),
   if env.persistFails then store else store ++ [sampleRecord env],
   [(env.samplePath, none)],
   []⟩

/-- Modelled from the spec: the default value of `measure_object`'s
reference-size parameter (its signature is in `measure_object_simple.py`,
absent from the sources; §6 gives the "default convention 24.26"). -/
def defaultReferenceSize : ℚ := (24.26 : ℚ)

/-- The reference size a `measure_object` call actually uses: the
explicit argument when one is passed, the default otherwise. -/
def effectiveReference (a : Option ℚ) : ℚ :=
  a.getD defaultReferenceSize

/-!
Modelled from the spec: the measurement engine.  `measure_object`'s body
(`measure_object_simple.py`) is not among the source files, so the engine
is modelled from §§3-4 of the design: the deterministic preprocessor is
abstracted into the candidate contour set it extracts from the image
(each candidate carrying its circularity score, pixel area, pixel
diameter and axis-aligned bounding box), and the pipeline
Reference Detector → Target Detector → Scale Resolver → Measurer →
Annotator is a big-step relation on that candidate set.  Detector
selection follows §4.3/§4.4: the reference maximises circularity × area
with ties broken by larger area then by first discovery; the target is
the largest-area contour not overlapping the reference box beyond the
tolerance, ties again by first discovery.
-/

/-- A candidate contour produced by the preprocessor: circularity score,
pixel area, pixel diameter, and the axis-aligned bounding box. -/
structure Contour where
  circ : ℚ
  area : ℚ
  diam : ℚ
  x : ℚ
  y : ℚ
  w : ℚ
  h : ℚ
deriving DecidableEq, Repr

instance : Inhabited Contour := ⟨⟨0, 0, 0, 0, 0, 0, 0⟩⟩

/-- Detection thresholds of §4: minimum circularity, plausible diameter
band, overlap tolerance for target exclusion, and the minimum reference
pixel diameter below which calibration is degenerate. -/
structure EngineCfg where
  minCirc : ℚ
  minDiam : ℚ
  maxDiam : ℚ
  overlapTol : ℚ
  minPixelDiam : ℚ
deriving DecidableEq, Repr

/-- A candidate clears the reference thresholds (§4.3): circular enough
and inside the plausible size band. -/
def plausibleRef (cfg : EngineCfg) (c : Contour) : Prop :=
  cfg.minCirc ≤ c.circ ∧ cfg.minDiam ≤ c.diam ∧ c.diam ≤ cfg.maxDiam

instance (cfg : EngineCfg) (c : Contour) : Decidable (plausibleRef cfg c) :=
  inferInstanceAs (Decidable (_ ≤ _ ∧ _ ≤ _ ∧ _ ≤ _))

/-- The reference selection score of §4.3: circularity × area. -/
def refScore (c : Contour) : ℚ := c.circ * c.area

/-- Strict preference between reference candidates: higher score, or
equal score and larger area (§4.3's first two tie-break levels). -/
def refBetter (c d : Contour) : Prop :=
  refScore d < refScore c ∨ (refScore c = refScore d ∧ d.area < c.area)

instance (c d : Contour) : Decidable (refBetter c d) :=
  inferInstanceAs (Decidable (_ < _ ∨ (_ = _ ∧ _ < _)))

/-- Position `i` holds the selected reference (§4.3): it clears the
thresholds and, against every other clearing candidate, is strictly
preferred or ties completely and was discovered no later. -/
def IsRefChoice (cfg : EngineCfg) (cs : List Contour) (i : ℕ) : Prop :=
  i < cs.length ∧ plausibleRef cfg (cs.getD i default) ∧
  ∀ j, j < cs.length → plausibleRef cfg (cs.getD j default) →
    refBetter (cs.getD i default) (cs.getD j default) ∨
    (refScore (cs.getD i default) = refScore (cs.getD j default) ∧
     (cs.getD i default).area = (cs.getD j default).area ∧ i ≤ j)

instance (cfg : EngineCfg) (cs : List Contour) (i : ℕ) :
    Decidable (IsRefChoice cfg cs i) :=
  inferInstanceAs (Decidable (_ ∧ _ ∧ ∀ j, j < _ → _))

/-- Area of the intersection of two bounding boxes. -/
def overlapArea (a b : Contour) : ℚ :=
  max 0 (min (a.x + a.w) (b.x + b.w) - max a.x b.x) *
  max 0 (min (a.y + a.h) (b.y + b.h) - max a.y b.y)

/-- A contour's box overlaps the reference's box beyond the tolerance
(§4.4's exclusion test). -/
def overlapsRef (cfg : EngineCfg) (rc c : Contour) : Prop :=
  cfg.overlapTol < overlapArea rc c

instance (cfg : EngineCfg) (rc c : Contour) : Decidable (overlapsRef cfg rc c) :=
  inferInstanceAs (Decidable (_ < _))

/-- Position `i` holds the selected target (§4.4): it survives the
reference-overlap exclusion and has maximal area among the survivors,
ties broken by first discovery (the determinism convention of §4.3,
required by §8's determinism property). -/
def IsTgtChoice (cfg : EngineCfg) (cs : List Contour) (rc : Contour) (i : ℕ) : Prop :=
  i < cs.length ∧ ¬ overlapsRef cfg rc (cs.getD i default) ∧
  ∀ j, j < cs.length → ¬ overlapsRef cfg rc (cs.getD j default) →
    (cs.getD j default).area < (cs.getD i default).area ∨
    ((cs.getD i default).area = (cs.getD j default).area ∧ i ≤ j)

instance (cfg : EngineCfg) (cs : List Contour) (rc : Contour) (i : ℕ) :
    Decidable (IsTgtChoice cfg cs rc i) :=
  inferInstanceAs (Decidable (_ ∧ _ ∧ ∀ j, j < _ → _))

/-- Rounding to two decimal places (§4.6). -/
def round2 (q : ℚ) : ℚ := (⌊q * 100 + 1 / 2⌋ : ℚ) / 100

/-- The annotated output artifact (§4.7): determined by the source image,
the two detected shapes and the dimension labels drawn on the copy. -/
structure Annotated where
  src : List Contour
  refShape : Contour
  tgtShape : Contour
  labelW : ℚ
  labelH : ℚ
deriving DecidableEq, Repr

/-- The engine's discriminated result (§4.8): a complete measurement or
one of the typed detection/calibration failures.  (`DecodeError` belongs
to the loader, which is upstream of the candidate-set abstraction.) -/
inductive EngineResult where
  | ok (width_mm height_mm : ℚ) (annotated : Annotated)
  | noReferenceFound
  | noObjectFound
  | degenerateScale
deriving DecidableEq, Repr

/-- Big-step semantics of one engine run on the candidate set `cs` with
caller-supplied reference diameter `r` (§4.8's linear state machine):
no candidate clears the reference thresholds → `NoReferenceFound`; a
reference is chosen but every contour is excluded by overlap →
`NoObjectFound`; reference and target chosen but the reference's pixel
diameter is below the minimum → `DegenerateScale`; otherwise the target
box is scaled by `r / pixel_diameter`, rounded to two decimals, and the
annotated artifact is produced. -/
inductive Measures (cfg : EngineCfg) (cs : List Contour) (r : ℚ) : EngineResult → Prop where
  | noRef :
      (∀ i, i < cs.length → ¬ plausibleRef cfg (cs.getD i default)) →
      Measures cfg cs r EngineResult.noReferenceFound
  | noTgt : ∀ i,
      IsRefChoice cfg cs i →
      (∀ j, j < cs.length → overlapsRef cfg (cs.getD i default) (cs.getD j default)) →
      Measures cfg cs r EngineResult.noObjectFound
  | degenerate : ∀ i j,
      IsRefChoice cfg cs i →
      IsTgtChoice cfg cs (cs.getD i default) j →
      (cs.getD i default).diam < cfg.minPixelDiam →
      Measures cfg cs r EngineResult.degenerateScale
  | ok : ∀ i j,
      IsRefChoice cfg cs i →
      IsTgtChoice cfg cs (cs.getD i default) j →
      cfg.minPixelDiam ≤ (cs.getD i default).diam →
      Measures cfg cs r
        (EngineResult.ok
          (round2 ((cs.getD j default).w * (r / (cs.getD i default).diam)))
          (round2 ((cs.getD j default).h * (r / (cs.getD i default).diam)))
          ⟨cs, cs.getD i default, cs.getD j default,
           round2 ((cs.getD j default).w * (r / (cs.getD i default).diam)),
           round2 ((cs.getD j default).h * (r / (cs.getD i default).diam))⟩)

theorem refBetter_asymm {c d : Contour} (h₁ : refBetter c d) (h₂ : refBetter d c) :
    False := by
  rcases h₁ with h₁ | ⟨hs₁, ha₁⟩ <;> rcases h₂ with h₂ | ⟨hs₂, ha₂⟩ <;> linarith

theorem isRefChoice_unique {cfg : EngineCfg} {cs : List Contour} {i j : ℕ}
    (hi : IsRefChoice cfg cs i) (hj : IsRefChoice cfg cs j) : i = j := by
  obtain ⟨hil, hip, him⟩ := hi
  obtain ⟨hjl, hjp, hjm⟩ := hj
  rcases him j hjl hjp with hA | ⟨hsc, har, hij⟩
  · rcases hjm i hil hip with hB | ⟨hsc, har⟩
    · exact absurd hB (fun hB => refBetter_asymm hA hB)
    · rcases hA with hA | ⟨_, hA⟩ <;> linarith
  · rcases hjm i hil hip with hB | ⟨_, _, hji⟩
    · rcases hB with hB | ⟨_, hB⟩ <;> linarith
    · exact Nat.le_antisymm hij hji

theorem isTgtChoice_unique {cfg : EngineCfg} {cs : List Contour} {rc : Contour}
    {i j : ℕ} (hi : IsTgtChoice cfg cs rc i) (hj : IsTgtChoice cfg cs rc j) :
    i = j := by
  obtain ⟨hil, hio, him⟩ := hi
  obtain ⟨hjl, hjo, hjm⟩ := hj
  rcases him j hjl hjo with hA | ⟨hae, hij⟩
  · rcases hjm i hil hio with hB | ⟨hae, _⟩ <;> linarith
  · rcases hjm i hil hio with hB | ⟨_, hji⟩
    · linarith
    · exact Nat.le_antisymm hij hji

/-!
Branch equations for `uploadFile`, shared by the claim proofs below.
-/

theorem uploadFile_noFile (env : Env) (req : UploadRequest) (store : List Record)
    (h : req.file = none) :
    uploadFile env req store = ⟨Response.redirect "/", store, [], []⟩ := by
  simp [uploadFile, h]

theorem uploadFile_emptyName (env : Env) (req : UploadRequest) (store : List Record)
    (h : req.file = some "") :
    uploadFile env req store = ⟨Response.redirect "/", store, [], []⟩ := by
  simp [uploadFile, h]

theorem uploadFile_badRef (env : Env) (req : UploadRequest) (store : List Record)
    {f : String} (hf : req.file = some f) (hne : f ≠ "")
    (hrs : refSizeVal env req.reference_size = none) :
    uploadFile env req store = ⟨Response.serverError, store, [], []⟩ := by
  simp [uploadFile, hf, hne, hrs]

theorem uploadFile_good (env : Env) (req : UploadRequest) (store : List Record)
    {f : String} {rs : ℚ} (hf : req.file = some f) (hne : f ≠ "")
    (hrs : refSizeVal env req.reference_size = some rs) :
    uploadFile env req store =
      ⟨Response.page (mkUploadPage env req rs),
       if env.persistFails then store else store ++ [mkUploadRecord env req rs f],
       [("uploads/" ++ savedName env f, some rs)],
       ["uploads/" ++ savedName env f]⟩ := by
  simp [uploadFile, hf, hne, hrs]

/-!
Concrete fixtures used by the witness and counterexample theorems.
-/

/-- A concrete environment: Python `float` knows the four strings the
fixture requests use, `json.loads` succeeds, persistence succeeds. -/
def envA : Env :=
  { strToFloat := fun s =>
      if s = "12.5" then some (12.5 : ℚ)
      else if s = "40.7" then some (40.7 : ℚ)
      else if s = "-74.1" then some (-74.1 : ℚ)
      else if s = "10" then some (10 : ℚ)
      else none
    jsonLoads := fun _ => some sampleWeather
    uploadUuid := "file-uuid"
    measUuid := "meas-uuid"
    now := "2026-10-12 00:00:00"
    engineOut := EngineOut.ok (48.52 : ℚ) (24.26 : ℚ)
    persistFails := false
    samplePath := "sample_image.jpg" }

/-- A fully populated good upload request. -/
def reqA : UploadRequest :=
  { file := some "photo.jpg"
    reference_size := some "12.5"
    object_name := some " Oak stump "
    notes := some "first survey"
    category := some "tools"
    latitude := some "40.7"
    longitude := some "-74.1"
    accuracy := some "10"
    weather := some "{}" }

/-- A request without a `file` part. -/
def reqNoFile : UploadRequest :=
  ⟨none, none, none, none, none, none, none, none, none⟩

/-- A request whose file part carries an empty filename. -/
def reqEmptyName : UploadRequest :=
  ⟨some "", none, none, none, none, none, none, none, none⟩

/-- A request whose `reference_size` does not parse as a float. -/
def reqBadRef : UploadRequest :=
  ⟨some "a.jpg", some "abc", none, none, none, none, none, none, none⟩

/-- A good request that leaves `reference_size` to its default. -/
def reqNoRef : UploadRequest :=
  ⟨some "photo.jpg", none, none, none, none, none, none, none, none⟩

/-- `envA`, but `measure_object` reports a detection failure. -/
def envDetectFail : Env := { envA with engineOut := EngineOut.noReferenceFound }

/-- `envA`, but the persistence step raises. -/
def envPersist : Env := { envA with persistFails := true }

/-!
The claims.
-/

/-- C1: for every upload request processed by `upload_file`, the numeric
measurement values are not threaded back to the caller: the stored
record's `width_mm`/`height_mm` and the rendered result page's
width/height are the placeholder string "Calculated automatically",
never numbers computed by `measure_object`. -/
theorem upload_placeholder_dimensions (env : Env) (req : UploadRequest)
    (store : List Record) (f : String) (rs : ℚ)
    (hf : req.file = some f) (hne : f ≠ "")
    (hrs : refSizeVal env req.reference_size = some rs) :
    (uploadFile env req store).response = Response.page (mkUploadPage env req rs) ∧
    (mkUploadPage env req rs).width = "Calculated automatically" ∧
    (mkUploadPage env req rs).height = "Calculated automatically" ∧
    ∀ r ∈ (uploadFile env req store).store,
      r ∈ store ∨ (r.width_mm = "Calculated automatically" ∧
                   r.height_mm = "Calculated automatically") := by
  rw [uploadFile_good env req store hf hne hrs]
  refine ⟨rfl, rfl, rfl, ?_⟩
  intro r hr
  by_cases hp : env.persistFails
  · simp [hp] at hr
    exact Or.inl hr
  · simp [hp] at hr
    rcases hr with hr | hr
    · exact Or.inl hr
    · subst hr
      exact Or.inr ⟨rfl, rfl⟩

theorem upload_placeholder_dimensions_witness :
    (uploadFile envA reqA []).response =
      Response.page (mkUploadPage envA reqA (12.5 : ℚ)) ∧
    (mkUploadPage envA reqA (12.5 : ℚ)).width = "Calculated automatically" ∧
    (mkUploadPage envA reqA (12.5 : ℚ)).height = "Calculated automatically" := by
  have h := upload_placeholder_dimensions envA reqA [] "photo.jpg" (12.5 : ℚ)
    rfl (by decide) rfl
  exact ⟨h.1, h.2.1, h.2.2.1⟩

/-- C2: every record stored by `upload_file` or `sample` carries the
constant `output_filename` "output_image.jpg", and every rendered result
page uses "/output_image.jpg" as the image URL, independent of the input
image and of the request. -/
theorem output_path_constant :
    (∀ (env : Env) (req : UploadRequest) (store : List Record) (r : Record),
       r ∈ (uploadFile env req store).store → r ∉ store →
       r.output_filename = "output_image.jpg") ∧
    (∀ (env : Env) (req : UploadRequest) (store : List Record) (p : ResultPage),
       (uploadFile env req store).response = Response.page p →
       p.image_url = "/output_image.jpg") ∧
    (∀ (env : Env) (store : List Record) (r : Record),
       r ∈ (sample env store).store → r ∉ store →
       r.output_filename = "output_image.jpg") ∧
    (∀ (env : Env) (store : List Record) (p : ResultPage),
       (sample env store).response = Response.page p →
       p.image_url = "/output_image.jpg") := by
  refine ⟨?_, ?_, ?_, ?_⟩
  · intro env req store r hr hnr
    rcases hfile : req.file with _ | fname
    · rw [uploadFile_noFile env req store hfile] at hr
      exact absurd hr hnr
    · by_cases hne : fname = ""
      · subst hne
        rw [uploadFile_emptyName env req store hfile] at hr
        exact absurd hr hnr
      · rcases hrs : refSizeVal env req.reference_size with _ | rs
        · rw [uploadFile_badRef env req store hfile hne hrs] at hr
          exact absurd hr hnr
        · rw [uploadFile_good env req store hfile hne hrs] at hr
          by_cases hp : env.persistFails
          · simp [hp] at hr
            exact absurd hr hnr
          · simp [hp] at hr
            rcases hr with hr | hr
            · exact absurd hr hnr
            · subst hr; rfl
  · intro env req store p hp
    rcases hfile : req.file with _ | fname
    · rw [uploadFile_noFile env req store hfile] at hp
      exact absurd hp (by simp)
    · by_cases hne : fname = ""
      · subst hne
        rw [uploadFile_emptyName env req store hfile] at hp
        exact absurd hp (by simp)
      · rcases hrs : refSizeVal env req.reference_size with _ | rs
        · rw [uploadFile_badRef env req store hfile hne hrs] at hp
          exact absurd hp (by simp)
        · rw [uploadFile_good env req store hfile hne hrs] at hp
          simp only [Response.page.injEq] at hp
          subst hp; rfl
  · intro env store r hr hnr
    by_cases hp : env.persistFails
    · simp [sample, hp] at hr
      exact absurd hr hnr
    · simp [sample, hp] at hr
      rcases hr with hr | hr
      · exact absurd hr hnr
      · subst hr; rfl
  · intro env store p hp
    simp only [sample, Response.page.injEq] at hp
    subst hp; rfl

theorem output_path_constant_witness :
    (sampleRecord envA).output_filename = "output_image.jpg" ∧
    (samplePage envA).image_url = "/output_image.jpg" :=
  ⟨output_path_constant.2.2.1 envA [] (sampleRecord envA)
     (by simp [sample, envA]) (by simp),
   output_path_constant.2.2.2 envA [] (samplePage envA) rfl⟩

/-- C3 counterexample: a concrete upload on which `measure_object`
reports `NoReferenceFound`, yet the handler's response is the normal
success result page, not a report of the failure. -/
theorem detection_failure_gets_success_page :
    envDetectFail.engineOut = EngineOut.noReferenceFound ∧
    (uploadFile envDetectFail reqA []).response =
      Response.page (mkUploadPage envDetectFail reqA (12.5 : ℚ)) := by
  constructor
  · rfl
  · rw [uploadFile_good envDetectFail reqA [] rfl (by decide) rfl]

/-- C3 (amended): detection failures are not surfaced: `upload_file`
discards `measure_object`'s outcome and renders the normal success
result page whatever that outcome was. -/
theorem upload_ignores_engine_outcome (env : Env) (req : UploadRequest)
    (store : List Record) (f : String) (rs : ℚ)
    (hf : req.file = some f) (hne : f ≠ "")
    (hrs : refSizeVal env req.reference_size = some rs) :
    (uploadFile env req store).response = Response.page (mkUploadPage env req rs) ∧
    ∀ o : EngineOut,
      (uploadFile { env with engineOut := o } req store).response =
        (uploadFile env req store).response := by
  constructor
  · rw [uploadFile_good env req store hf hne hrs]
  · intro o
    rw [uploadFile_good env req store hf hne hrs,
        uploadFile_good { env with engineOut := o } req store hf hne hrs]
    rfl

theorem upload_ignores_engine_outcome_witness :
    (uploadFile envA reqA []).response =
      Response.page (mkUploadPage envA reqA (12.5 : ℚ)) ∧
    (uploadFile { envA with engineOut := EngineOut.noObjectFound } reqA []).response =
      (uploadFile envA reqA []).response :=
  ⟨(upload_ignores_engine_outcome envA reqA [] "photo.jpg" (12.5 : ℚ)
      rfl (by decide) rfl).1,
   (upload_ignores_engine_outcome envA reqA [] "photo.jpg" (12.5 : ℚ)
      rfl (by decide) rfl).2 EngineOut.noObjectFound⟩

/-- C4 counterexample: an upload request with a non-empty file whose
`reference_size` does not parse: `float` raises before any side effect,
so no record is appended and the handler errors out. -/
theorem unparsable_reference_size_stores_nothing :
    reqBadRef.file = some "a.jpg" ∧ ("a.jpg" : String) ≠ "" ∧
    (uploadFile envA reqBadRef []).store = [] ∧
    (uploadFile envA reqBadRef []).response = Response.serverError := by
  refine ⟨rfl, by decide, ?_, ?_⟩ <;>
    rw [uploadFile_badRef envA reqBadRef [] rfl (by decide) rfl]

/-- C4 (amended): for every upload request with a non-empty file whose
`reference_size` parses and whose persistence step does not raise,
`upload_file` appends exactly one record, carrying the fresh id, the
timestamp, the parsed GPS metadata, the parsed weather payload, the
category, the object name and the notes; if the fresh id was not already
in the store, exactly one stored record bears it. -/
theorem upload_appends_one_record (env : Env) (req : UploadRequest)
    (store : List Record) (f : String) (rs : ℚ)
    (hf : req.file = some f) (hne : f ≠ "")
    (hrs : refSizeVal env req.reference_size = some rs)
    (hp : env.persistFails = false) :
    (uploadFile env req store).store = store ++ [mkUploadRecord env req rs f] ∧
    (mkUploadRecord env req rs f).id = env.measUuid ∧
    (mkUploadRecord env req rs f).timestamp = env.now ∧
    (mkUploadRecord env req rs f).latitude =
      (parseGps env.strToFloat req.latitude req.longitude req.accuracy).1 ∧
    (mkUploadRecord env req rs f).longitude =
      (parseGps env.strToFloat req.latitude req.longitude req.accuracy).2.1 ∧
    (mkUploadRecord env req rs f).accuracy =
      (parseGps env.strToFloat req.latitude req.longitude req.accuracy).2.2 ∧
    (mkUploadRecord env req rs f).weather_data = parseWeather env req.weather ∧
    (mkUploadRecord env req rs f).category = req.category.getD "other" ∧
    (mkUploadRecord env req rs f).object_name = (req.object_name.getD "").trim ∧
    (mkUploadRecord env req rs f).notes = (req.notes.getD "").trim ∧
    (env.measUuid ∉ store.map Record.id →
      ((store ++ [mkUploadRecord env req rs f]).countP
        (fun r => r.id == env.measUuid)) = 1) := by
  refine ⟨?_, rfl, rfl, rfl, rfl, rfl, rfl, rfl, rfl, rfl, ?_⟩
  · rw [uploadFile_good env req store hf hne hrs]
    simp [hp]
  · intro hnotin
    rw [List.countP_append]
    have h0 : store.countP (fun r => r.id == env.measUuid) = 0 := by
      rw [List.countP_eq_zero]
      intro r hrmem hbeq
      exact hnotin (List.mem_map.mpr ⟨r, hrmem, by simpa using hbeq⟩)
    rw [h0]
    simp [mkUploadRecord]

theorem upload_appends_one_record_witness :
    (uploadFile envA reqA []).store =
      [mkUploadRecord envA reqA (12.5 : ℚ) "photo.jpg"] ∧
    (mkUploadRecord envA reqA (12.5 : ℚ) "photo.jpg").id = envA.measUuid ∧
    ([mkUploadRecord envA reqA (12.5 : ℚ) "photo.jpg"].countP
      (fun r => r.id == envA.measUuid)) = 1 := by
  have h := upload_appends_one_record envA reqA [] "photo.jpg" (12.5 : ℚ)
    rfl (by decide) rfl rfl
  exact ⟨by simpa using h.1, h.2.1, by simpa using h.2.2.2.2.2.2.2.2.2.2 (by simp)⟩

/-- C5: the reference physical diameter defaults to 24.26 mm: with no
`reference_size` in the form, `upload_file` passes 24.26 to
`measure_object`; the sample route leaves the parameter to its default
(whose effective value is 24.26) and stores `reference_size_mm` 24.26. -/
theorem default_reference_is_quarter (env : Env) (req : UploadRequest)
    (store : List Record) (f : String)
    (hf : req.file = some f) (hne : f ≠ "")
    (hns : req.reference_size = none) :
    (uploadFile env req store).measureCalls =
      [("uploads/" ++ savedName env f, some (24.26 : ℚ))] ∧
    (∀ (en : Env) (st : List Record),
       (sample en st).measureCalls = [(en.samplePath, none)] ∧
       (sampleRecord en).reference_size_mm = (24.26 : ℚ)) ∧
    effectiveReference none = (24.26 : ℚ) := by
  have hrs : refSizeVal env req.reference_size = some (24.26 : ℚ) := by
    rw [hns]
    rfl
  refine ⟨?_, fun en st => ⟨rfl, rfl⟩, rfl⟩
  rw [uploadFile_good env req store hf hne hrs]

theorem default_reference_is_quarter_witness :
    (uploadFile envA reqNoRef []).measureCalls =
      [("uploads/" ++ savedName envA "photo.jpg", some (24.26 : ℚ))] ∧
    (sample envA []).measureCalls = [(envA.samplePath, none)] ∧
    (sampleRecord envA).reference_size_mm = (24.26 : ℚ) := by
  have h := default_reference_is_quarter envA reqNoRef [] "photo.jpg"
    rfl (by decide) rfl
  exact ⟨h.1, (h.2.1 envA []).1, (h.2.1 envA []).2⟩

/-- C6 counterexample: an upload request without a file part invokes
`measure_object` zero times, not exactly once. -/
theorem upload_without_file_zero_engine_calls :
    (uploadFile envA reqNoFile []).measureCalls.length = 0 := by
  rw [uploadFile_noFile envA reqNoFile [] rfl]
  rfl

/-- C6 (amended): no retries and no loop: every upload request that
reaches the measurement step (non-empty file, parsable reference size)
invokes `measure_object` exactly once, and every sample request invokes
it exactly once. -/
theorem engine_invoked_once (env : Env) (req : UploadRequest)
    (store : List Record) (f : String) (rs : ℚ)
    (hf : req.file = some f) (hne : f ≠ "")
    (hrs : refSizeVal env req.reference_size = some rs) :
    (uploadFile env req store).measureCalls.length = 1 ∧
    ∀ (en : Env) (st : List Record), (sample en st).measureCalls.length = 1 := by
  refine ⟨?_, fun en st => rfl⟩
  rw [uploadFile_good env req store hf hne hrs]
  rfl

theorem engine_invoked_once_witness :
    (uploadFile envA reqA []).measureCalls.length = 1 ∧
    (sample envA []).measureCalls.length = 1 := by
  have h := engine_invoked_once envA reqA [] "photo.jpg" (12.5 : ℚ)
    rfl (by decide) rfl
  exact ⟨h.1, h.2 envA []⟩

/-- C7: failure of the persistence step is silent: when reading or
writing `measurements.json` raises, the handler still returns the very
success page it returns when persistence succeeds, and the store is left
unchanged, so the caller cannot observe that the record was not saved. -/
theorem persistence_failure_is_silent (env : Env) (req : UploadRequest)
    (store : List Record) (f : String) (rs : ℚ)
    (hf : req.file = some f) (hne : f ≠ "")
    (hrs : refSizeVal env req.reference_size = some rs)
    (hp : env.persistFails = true) :
    (uploadFile env req store).response = Response.page (mkUploadPage env req rs) ∧
    (uploadFile env req store).store = store ∧
    (uploadFile env req store).response =
      (uploadFile { env with persistFails := false } req store).response := by
  rw [uploadFile_good env req store hf hne hrs,
      uploadFile_good { env with persistFails := false } req store hf hne hrs]
  exact ⟨rfl, by simp [hp], rfl⟩

theorem persistence_failure_is_silent_witness :
    (uploadFile envPersist reqA []).response =
      Response.page (mkUploadPage envPersist reqA (12.5 : ℚ)) ∧
    (uploadFile envPersist reqA []).store = [] := by
  have h := persistence_failure_is_silent envPersist reqA [] "photo.jpg" (12.5 : ℚ)
    rfl (by decide) rfl rfl
  exact ⟨h.1, h.2.1⟩

/-- C9: GPS fields are parsed atomically: if converting any of latitude,
longitude or accuracy raises, all three are stored as `None`; otherwise
each is stored as its converted float, with an absent or empty field
stored as `None`. -/
theorem gps_fields_atomic (env : Env) (req : UploadRequest)
    (store : List Record) (f : String) (rs : ℚ)
    (hf : req.file = some f) (hne : f ≠ "")
    (hrs : refSizeVal env req.reference_size = some rs)
    (hp : env.persistFails = false) :
    (uploadFile env req store).store = store ++ [mkUploadRecord env req rs f] ∧
    ((gpsConv env.strToFloat req.latitude = none ∨
      gpsConv env.strToFloat req.longitude = none ∨
      gpsConv env.strToFloat req.accuracy = none) →
       (mkUploadRecord env req rs f).latitude = none ∧
       (mkUploadRecord env req rs f).longitude = none ∧
       (mkUploadRecord env req rs f).accuracy = none) ∧
    (∀ a b c, gpsConv env.strToFloat req.latitude = some a →
       gpsConv env.strToFloat req.longitude = some b →
       gpsConv env.strToFloat req.accuracy = some c →
       (mkUploadRecord env req rs f).latitude = a ∧
       (mkUploadRecord env req rs f).longitude = b ∧
       (mkUploadRecord env req rs f).accuracy = c) ∧
    gpsConv env.strToFloat none = some none ∧
    gpsConv env.strToFloat (some "") = some none := by
  refine ⟨?_, ?_, ?_, rfl, rfl⟩
  · rw [uploadFile_good env req store hf hne hrs]
    simp [hp]
  · intro h
    have hz : parseGps env.strToFloat req.latitude req.longitude req.accuracy =
        (none, none, none) := by
      rcases hla : gpsConv env.strToFloat req.latitude with _ | a
      · simp [parseGps, hla]
      · rcases hlo : gpsConv env.strToFloat req.longitude with _ | b
        · simp [parseGps, hla, hlo]
        · rcases hac : gpsConv env.strToFloat req.accuracy with _ | c
          · simp [parseGps, hla, hlo, hac]
          · rcases h with h | h | h
            · rw [h] at hla; exact absurd hla (by simp)
            · rw [h] at hlo; exact absurd hlo (by simp)
            · rw [h] at hac; exact absurd hac (by simp)
    refine ⟨?_, ?_, ?_⟩ <;> simp [mkUploadRecord, hz]
  · intro a b c hla hlo hac
    refine ⟨?_, ?_, ?_⟩ <;> simp [mkUploadRecord, parseGps, hla, hlo, hac]

theorem gps_fields_atomic_witness :
    (uploadFile envA reqA []).store =
      [mkUploadRecord envA reqA (12.5 : ℚ) "photo.jpg"] ∧
    (mkUploadRecord envA reqA (12.5 : ℚ) "photo.jpg").latitude = some (40.7 : ℚ) ∧
    (mkUploadRecord envA reqA (12.5 : ℚ) "photo.jpg").longitude = some (-74.1 : ℚ) ∧
    (mkUploadRecord envA reqA (12.5 : ℚ) "photo.jpg").accuracy = some (10 : ℚ) := by
  have h := gps_fields_atomic envA reqA [] "photo.jpg" (12.5 : ℚ)
    rfl (by decide) rfl rfl
  have hc := h.2.2.1 (some (40.7 : ℚ)) (some (-74.1 : ℚ)) (some (10 : ℚ)) rfl rfl rfl
  exact ⟨by simpa using h.1, hc.1, hc.2.1, hc.2.2⟩

/-- C10: an upload request with no file part or an empty filename only
redirects to "/": `measure_object` is not called, no file is saved, and
the measurement store is unchanged. -/
theorem missing_file_redirects (env : Env) (req : UploadRequest)
    (store : List Record)
    (h : req.file = none ∨ req.file = some "") :
    uploadFile env req store = ⟨Response.redirect "/", store, [], []⟩ := by
  rcases h with h | h
  · exact uploadFile_noFile env req store h
  · exact uploadFile_emptyName env req store h

theorem missing_file_redirects_witness :
    uploadFile envA reqNoFile [] = ⟨Response.redirect "/", [], [], []⟩ ∧
    uploadFile envA reqEmptyName [] = ⟨Response.redirect "/", [], [], []⟩ :=
  ⟨missing_file_redirects envA reqNoFile [] (Or.inl rfl),
   missing_file_redirects envA reqEmptyName [] (Or.inr rfl)⟩

/-- C8: the modelled engine is deterministic: two runs on the same
candidate set (itself a function of the image bytes via the
deterministic preprocessor) and the same reference diameter produce the
same result — the same `width_mm`/`height_mm` and the same annotated
output, or the same typed failure. -/
theorem engine_deterministic {cfg : EngineCfg} {cs : List Contour} {r : ℚ}
    {o₁ o₂ : EngineResult}
    (h₁ : Measures cfg cs r o₁) (h₂ : Measures cfg cs r o₂) : o₁ = o₂ := by
  cases h₁ with
  | noRef hn =>
    cases h₂ with
    | noRef _ => rfl
    | noTgt i hri hall => exact absurd hri.2.1 (hn i hri.1)
    | degenerate i j hri htj hlt => exact absurd hri.2.1 (hn i hri.1)
    | ok i j hri htj hge => exact absurd hri.2.1 (hn i hri.1)
  | noTgt i hri hall =>
    cases h₂ with
    | noRef hn => exact absurd hri.2.1 (hn i hri.1)
    | noTgt i' hri' hall' => rfl
    | degenerate i' j' hri' htj' hlt =>
      have hii : i' = i := isRefChoice_unique hri' hri
      subst hii
      exact absurd (hall j' htj'.1) htj'.2.1
    | ok i' j' hri' htj' hge =>
      have hii : i' = i := isRefChoice_unique hri' hri
      subst hii
      exact absurd (hall j' htj'.1) htj'.2.1
  | degenerate i j hri htj hlt =>
    cases h₂ with
    | noRef hn => exact absurd hri.2.1 (hn i hri.1)
    | noTgt i' hri' hall' =>
      have hii : i' = i := isRefChoice_unique hri' hri
      subst hii
      exact absurd (hall' j htj.1) htj.2.1
    | degenerate i' j' hri' htj' hlt' => rfl
    | ok i' j' hri' htj' hge =>
      have hii : i' = i := isRefChoice_unique hri' hri
      subst hii
      exact absurd hge (not_le.mpr hlt)
  | ok i j hri htj hge =>
    cases h₂ with
    | noRef hn => exact absurd hri.2.1 (hn i hri.1)
    | noTgt i' hri' hall' =>
      have hii : i' = i := isRefChoice_unique hri' hri
      subst hii
      exact absurd (hall' j htj.1) htj.2.1
    | degenerate i' j' hri' htj' hlt =>
      have hii : i' = i := isRefChoice_unique hri' hri
      subst hii
      exact absurd hge (not_le.mpr hlt)
    | ok i' j' hri' htj' hge' =>
      have hii : i' = i := isRefChoice_unique hri' hri
      subst hii
      have hjj : j' = j := isTgtChoice_unique htj' htj
      subst hjj
      rfl

/-- Scenario 1 of §8: thresholds for the concrete run. -/
def cfgScenario : EngineCfg := ⟨1, 10, 1000, 0, 5⟩

/-- Scenario 1 of §8: the circular reference, 200 px diameter. -/
def refContour : Contour := ⟨1, 31416, 200, 0, 0, 200, 200⟩

/-- Scenario 1 of §8: the rectangular 400×200 px target, disjoint from
the reference box. -/
def tgtContour : Contour := ⟨0, 80000, 447, 300, 0, 400, 200⟩

/-- The candidate set of the concrete scenario. -/
def sceneContours : List Contour := [refContour, tgtContour]

/-- Scenario 1's expected result: scale 24.26/200 mm/px, so 48.52 mm ×
24.26 mm. -/
def scenarioOut : EngineResult :=
  EngineResult.ok (48.52 : ℚ) (24.26 : ℚ)
    ⟨sceneContours, refContour, tgtContour, (48.52 : ℚ), (24.26 : ℚ)⟩

theorem scenario_ref : IsRefChoice cfgScenario sceneContours 0 := by
  refine ⟨by simp [sceneContours], ?_, ?_⟩
  · show plausibleRef cfgScenario (sceneContours.getD 0 default)
    simp only [sceneContours, List.getD_cons_zero]
    norm_num [plausibleRef, cfgScenario, refContour]
  · intro j hj hpj
    simp only [sceneContours, List.length_cons, List.length_nil] at hj
    interval_cases j
    · right
      exact ⟨rfl, rfl, Nat.le_refl 0⟩
    · exfalso
      simp only [sceneContours, List.getD_cons_succ, List.getD_cons_zero] at hpj
      rw [plausibleRef] at hpj
      norm_num [cfgScenario, tgtContour] at hpj

theorem scenario_tgt :
    IsTgtChoice cfgScenario sceneContours (sceneContours.getD 0 default) 1 := by
  refine ⟨by simp [sceneContours], ?_, ?_⟩
  · show ¬ overlapsRef cfgScenario (sceneContours.getD 0 default)
      (sceneContours.getD 1 default)
    simp only [sceneContours, List.getD_cons_zero, List.getD_cons_succ]
    rw [overlapsRef, overlapArea]
    norm_num [cfgScenario, refContour, tgtContour]
  · intro j hj hjo
    simp only [sceneContours, List.length_cons, List.length_nil] at hj
    interval_cases j
    · exfalso
      apply hjo
      simp only [sceneContours, List.getD_cons_zero]
      rw [overlapsRef, overlapArea]
      norm_num [cfgScenario, refContour]
    · right
      exact ⟨rfl, Nat.le_refl 1⟩

theorem scenario_run : Measures cfgScenario sceneContours (24.26 : ℚ) scenarioOut := by
  have hd : cfgScenario.minPixelDiam ≤ (sceneContours.getD 0 default).diam := by
    simp only [sceneContours, List.getD_cons_zero]
    norm_num [cfgScenario, refContour]
  have h := @Measures.ok cfgScenario sceneContours (24.26 : ℚ) 0 1
    scenario_ref scenario_tgt hd
  have he : EngineResult.ok
      (round2 ((sceneContours.getD 1 default).w *
        ((24.26 : ℚ) / (sceneContours.getD 0 default).diam)))
      (round2 ((sceneContours.getD 1 default).h *
        ((24.26 : ℚ) / (sceneContours.getD 0 default).diam)))
      ⟨sceneContours, sceneContours.getD 0 default, sceneContours.getD 1 default,
       round2 ((sceneContours.getD 1 default).w *
         ((24.26 : ℚ) / (sceneContours.getD 0 default).diam)),
       round2 ((sceneContours.getD 1 default).h *
         ((24.26 : ℚ) / (sceneContours.getD 0 default).diam))⟩
      = scenarioOut := by
    simp only [sceneContours, List.getD_cons_zero, List.getD_cons_succ, scenarioOut,
      EngineResult.ok.injEq, Annotated.mk.injEq]
    norm_num [round2, refContour, tgtContour]
  rw [he] at h
  exact h

theorem engine_deterministic_witness :
    Measures cfgScenario sceneContours (24.26 : ℚ) scenarioOut ∧
    scenarioOut = scenarioOut :=
  ⟨scenario_run, engine_deterministic scenario_run scenario_run⟩

end GeoApp
